import Mathlib

/-!
Verification of the VitalityScore scoring engine and health-data services.

The scoring core (src/utils/fitnessCalculator.ts) and the services
(src/services/healthDataProviders.ts, src/services/healthService.ts) are
shallowly embedded below.  JavaScript numbers are modelled as rationals
(reals only where the source takes a square root), `Math.round` as
half-up rounding to an integer, promise rejection as an `Except` value,
and the HealthKit callbacks as explicit inputs.
-/

namespace VitalityScore

/-- JavaScript `Math.round` on a rational: half-up rounding, `⌊x + 1/2⌋`. -/
def jsRound (x : ℚ) : ℤ := ⌊x + 1/2⌋

/-- JavaScript `Math.round` on a real (used where the source involves `Math.sqrt`). -/
noncomputable def jsRoundR (x : ℝ) : ℤ := ⌊x + 1/2⌋

/-- Model of JavaScript `String.prototype.includes` restricted to character
lists: `jsIncludesCL needle hay` is true when `needle` occurs contiguously in
`hay`. -/
def jsIncludesCL (needle : List Char) : List Char → Bool
  | [] => needle.isEmpty
  | c :: rest => needle.isPrefixOf (c :: rest) || jsIncludesCL needle rest

/-- Model of `hay.includes(needle)` on strings. -/
def jsIncludes (hay needle : String) : Bool := jsIncludesCL needle.data hay.data

/-! ## Data model (src/utils/fitnessCalculator.ts and @/types/health) -/

/-- The nine-field health metrics record consumed by `calculateFitnessScore`. -/
structure HealthMetrics where
  restingHeartRate : ℚ
  heartRateVariability : ℚ
  vo2Max : ℚ
  deepSleepPercentage : ℚ
  remSleepPercentage : ℚ
  sleepConsistency : ℚ
  monthlyTrainingTime : ℚ
  trainingIntensity : ℚ
  dailySteps : ℚ
  deriving DecidableEq

/-- An explanatory history entry (sub-metric name, points awarded, rationale). -/
structure HistoryItem where
  title : String
  points : ℚ
  rationale : String
  deriving DecidableEq

/-- Result of one category calculator: earned total and explanatory items. -/
structure CategoryResult where
  total : ℚ
  items : List HistoryItem
  deriving DecidableEq

/-- Result of the bonus utility: bonus points and a textual explanation. -/
structure BonusResult where
  points : ℚ
  detailedExplanation : String
  deriving DecidableEq

/-- The `bonusBreakdown` sub-record of a fitness score result. -/
structure BonusBreakdown where
  cardiovascularPercent : ℤ
  recoveryPercent : ℤ
  activityPercent : ℤ
  excellentCategories : List String
  requirementsExplanation : String
  deriving DecidableEq

/-- The full result record returned by `calculateFitnessScore`. -/
structure FitnessScoreResult where
  totalScore : ℚ
  cardiovascularPoints : ℚ
  recoveryPoints : ℚ
  activityPoints : ℚ
  bonusPoints : ℚ
  fitnessLevel : String
  bonusBreakdown : BonusBreakdown
  historyItems : List HistoryItem
  deriving DecidableEq

/-! ## Bonus utility (src/utils/scoringUtils.ts, not under src/) -/

/-- Modelled from the spec: `calculateBonusPoints` lives in
`src/utils/scoringUtils.ts`, which is not under `src/`.  Following spec
section 4.2: compute each category percent-of-max (maxima 30, 35, 30), count
the categories at or above 75 percent, map the count to points through the
fixed table 0 to 0, 1 to 1, 2 to 3, 3 to 5, and produce an explanation naming
the qualifying categories, using the literal phrase "all three" exactly when
the count is 3. -/
def calculateBonusPoints (cardioTotal recoveryTotal activityTotal : ℚ) : BonusResult :=
  let cardioPct := cardioTotal / 30 * 100
  let recoveryPct := recoveryTotal / 35 * 100
  let activityPct := activityTotal / 30 * 100
  let qualified : List String :=
    (if cardioPct ≥ 75 then ["Cardiovascular"] else []) ++
    (if recoveryPct ≥ 75 then ["Recovery"] else []) ++
    (if activityPct ≥ 75 then ["Activity"] else [])
  let count := qualified.length
  let points : ℚ := if count = 0 then 0 else if count = 1 then 1 else if count = 2 then 3 else 5
  let expl : String :=
    if count = 3 then
      "Outstanding! You reached at least 75% of the maximum in all three categories."
    else if count = 0 then
      "No category reached 75% of its maximum yet."
    else
      "You reached at least 75% of the maximum in: " ++ String.intercalate ", " qualified ++ "."
  { points := points, detailedExplanation := expl }

/-- Modelled from the spec: `createBonusHistoryItem` lives in
`src/utils/categoryCalculators.ts`, which is not under `src/`.  It packages
the bonus result for the three category totals as the single bonus history
entry appended by the orchestrator. -/
def createBonusHistoryItem (cardioTotal recoveryTotal activityTotal : ℚ) : HistoryItem :=
  let bonus := calculateBonusPoints cardioTotal recoveryTotal activityTotal
  { title := "Bonus Consistency"
    points := bonus.points
    rationale := bonus.detailedExplanation }

/-! ## Orchestrator (src/utils/fitnessCalculator.ts, lines 27-97)

The three category calculators and `determineFitnessLevel` are imported from
`src/utils/categoryCalculators.ts` and `src/utils/scoringUtils.ts`, which are
not under `src/`; the spec fixes only their signatures and ranges, not their
threshold tables, so the orchestrator is parameterized over them. -/

/-- Shallow embedding of `calculateFitnessScore`, parameterized over the three
category calculators and the fitness-level classifier. -/
def calculateFitnessScore
    (calcCardio calcRecovery calcActivity : ℚ → ℚ → ℚ → CategoryResult)
    (determineFitnessLevel : ℚ → String)
    (metrics : HealthMetrics) : FitnessScoreResult :=
  let cardiovascularResult :=
    calcCardio metrics.restingHeartRate metrics.heartRateVariability metrics.vo2Max
  let recoveryResult :=
    calcRecovery metrics.deepSleepPercentage metrics.remSleepPercentage metrics.sleepConsistency
  let activityResult :=
    calcActivity (metrics.monthlyTrainingTime / 30) metrics.trainingIntensity metrics.dailySteps
  let bonusResult :=
    calculateBonusPoints cardiovascularResult.total recoveryResult.total activityResult.total
  let bonusHistoryItem :=
    createBonusHistoryItem cardiovascularResult.total recoveryResult.total activityResult.total
  let totalScore :=
    cardiovascularResult.total + recoveryResult.total + activityResult.total + bonusResult.points
  let fitnessLevel := determineFitnessLevel totalScore
  let historyItems :=
    cardiovascularResult.items ++ recoveryResult.items ++ activityResult.items ++ [bonusHistoryItem]
  { totalScore := totalScore
    cardiovascularPoints := cardiovascularResult.total
    recoveryPoints := recoveryResult.total
    activityPoints := activityResult.total
    bonusPoints := bonusResult.points
    fitnessLevel := fitnessLevel
    bonusBreakdown :=
      { cardiovascularPercent := jsRound (cardiovascularResult.total / 30 * 100)
        recoveryPercent := jsRound (recoveryResult.total / 35 * 100)
        activityPercent := jsRound (activityResult.total / 30 * 100)
        excellentCategories :=
          if jsIncludes bonusResult.detailedExplanation "all three" then
            ["Cardiovascular", "Recovery", "Activity"]
          else []
        requirementsExplanation := bonusResult.detailedExplanation }
    historyItems := historyItems }

/-! ## Health data providers (src/services/healthDataProviders.ts)

Each provider resolves its promise in every branch of the source; this is
embedded by making each provider a total function from the platform flag and
the HealthKit callback outcome (`Except`: `.error` for a truthy
`callbackError`, `.ok` for a result list) to the resolved value. -/

/-- Outcome handed to a HealthKit callback: a truthy error string, or results. -/
abbrev HKCallback (α : Type) := Except String α

/-- Numeric sample providers share this averaging shape
(`getRestingHeartRateData`, lines 16-43; `getHeartRateVariabilitySamples`,
lines 48-75): average the samples, 0 when empty, then `Math.round`. -/
def averageSamples (results : List ℚ) : ℚ :=
  if results.length > 0 then results.sum / results.length else 0

/-- Embedding of `getRestingHeartRateData` (lines 16-43). -/
def getRestingHeartRateData (isIOS : Bool) (cb : HKCallback (List ℚ)) : ℚ :=
  if !isIOS then 0 else
  match cb with
  | .error _ => 0
  | .ok results => (jsRound (averageSamples results) : ℚ)

/-- Embedding of `getHeartRateVariabilityData` (lines 48-75). -/
def getHeartRateVariabilityData (isIOS : Bool) (cb : HKCallback (List ℚ)) : ℚ :=
  if !isIOS then 0 else
  match cb with
  | .error _ => 0
  | .ok results => (jsRound (averageSamples results) : ℚ)

/-- Embedding of `getVO2MaxData` (lines 80-107): `Math.round(avg * 10) / 10`. -/
def getVO2MaxData (isIOS : Bool) (cb : HKCallback (List ℚ)) : ℚ :=
  if !isIOS then 0 else
  match cb with
  | .error _ => 0
  | .ok results => (jsRound (averageSamples results * 10) : ℚ) / 10

/-- Embedding of `getTodaysStepCount` (lines 198-217): `results.value || 0`,
with a possibly absent value modelled as an `Option`. -/
def getTodaysStepCount (isIOS : Bool) (cb : HKCallback (Option ℚ)) : ℚ :=
  if !isIOS then 0 else
  match cb with
  | .error _ => 0
  | .ok results => results.getD 0

/-- A raw sleep sample: stage label and start/end timestamps in milliseconds. -/
structure SleepSample where
  value : String
  startMs : ℚ
  endMs : ℚ

/-- Duration of a sleep sample in hours (lines 147-150). -/
def sampleHours (s : SleepSample) : ℚ := (s.endMs - s.startMs) / (1000 * 60 * 60)

/-- The per-sample durations pushed into `sleepDurations` (lines 144-161). -/
def sleepDurations (results : List SleepSample) : List ℚ :=
  results.map sampleHours

/-- Hours accumulated into `totalSleep` (line 152). -/
def totalSleepOf (results : List SleepSample) : ℚ :=
  (sleepDurations results).sum

/-- Hours accumulated into `totalDeepSleep` (lines 154-155). -/
def totalDeepSleepOf (results : List SleepSample) : ℚ :=
  ((results.filter (fun s => s.value == "DEEP")).map sampleHours).sum

/-- Hours accumulated into `totalRemSleep` (lines 156-157). -/
def totalRemSleepOf (results : List SleepSample) : ℚ :=
  ((results.filter (fun s => s.value == "REM")).map sampleHours).sum

/-- The `averageSleep` value (lines 169-173): mean duration, 0 when empty. -/
def averageSleep (ds : List ℚ) : ℚ :=
  if ds.length > 0 then ds.sum / ds.length else 0

/-- The `variance` value (lines 174-180): population variance, 0 when empty. -/
def sleepVariance (ds : List ℚ) : ℚ :=
  if ds.length > 0 then
    (ds.map (fun d => (d - averageSleep ds) ^ 2)).sum / ds.length
  else 0

/-- The `standardDeviation` value (line 181): `Math.sqrt(variance)`. -/
noncomputable def standardDeviation (ds : List ℚ) : ℝ :=
  Real.sqrt ((sleepVariance ds : ℚ) : ℝ)

/-- The rounded `sleepConsistency` score (lines 182 and 187):
`Math.round(Math.max(0, 100 - standardDeviation * 20))`. -/
noncomputable def sleepConsistencyScore (ds : List ℚ) : ℤ :=
  jsRoundR (max 0 (100 - standardDeviation ds * 20))

/-- The record resolved by `getSleepAnalysisData`. -/
structure SleepAnalysisResult where
  deepSleepPercentage : ℚ
  remSleepPercentage : ℚ
  sleepConsistency : ℚ
  deriving DecidableEq

/-- Embedding of `getSleepAnalysisData` (lines 112-193). -/
noncomputable def getSleepAnalysisData (isIOS : Bool)
    (cb : HKCallback (List SleepSample)) : SleepAnalysisResult :=
  if !isIOS then ⟨0, 0, 0⟩ else
  match cb with
  | .error _ => ⟨0, 0, 0⟩
  | .ok results =>
    let totalSleep := totalSleepOf results
    let deepSleepPercentage :=
      if totalSleep > 0 then totalDeepSleepOf results / totalSleep * 100 else 0
    let remSleepPercentage :=
      if totalSleep > 0 then totalRemSleepOf results / totalSleep * 100 else 0
    { deepSleepPercentage := (jsRound (deepSleepPercentage * 10) : ℚ) / 10
      remSleepPercentage := (jsRound (remSleepPercentage * 10) : ℚ) / 10
      sleepConsistency := (sleepConsistencyScore (sleepDurations results) : ℚ) }

/-! ## Health service (src/services/healthService.ts) -/

/-- The monthly workout summary consumed by `getAllHealthMetrics`. -/
structure WorkoutData where
  monthlyTrainingTime : ℚ
  trainingIntensity : ℚ

/-- The environment a `HealthService` call runs against: the platform flag,
the `initHealthKit` callback outcome, and each provider callback outcome.
The `workoutData` field is Modelled from the spec: `getMonthlyWorkoutData`
lives in `src/services/workoutDataProviders.ts`, which is not under `src/`;
the spec treats it as part of the excluded non-failing data source, so it is
modelled as an opaque always-resolving provider output. -/
structure HealthKitEnv where
  isIOS : Bool
  initError : Option String
  rhrCb : HKCallback (List ℚ)
  hrvCb : HKCallback (List ℚ)
  vo2Cb : HKCallback (List ℚ)
  sleepCb : HKCallback (List SleepSample)
  stepsCb : HKCallback (Option ℚ)
  workoutData : WorkoutData

/-- Embedding of `HealthService.initialize` (lines 78-94): false off-iOS,
otherwise true exactly when the `initHealthKit` callback reports no error. -/
def initializeResult (env : HealthKitEnv) : Bool :=
  if !env.isIOS then false else env.initError.isNone

/-- The error thrown by `getAllHealthMetrics` when initialization fails. -/
inductive HealthServiceError where
  | healthKitInitializationError (message : String)
  deriving DecidableEq

/-- Embedding of `HealthService.getAllHealthMetrics` (lines 99-138):
when not yet initialized, initialize and throw on failure; otherwise gather
all nine fields from the providers (which always resolve). -/
noncomputable def getAllHealthMetrics (isHealthKitInitialized : Bool)
    (env : HealthKitEnv) : Except HealthServiceError HealthMetrics :=
  if !isHealthKitInitialized && !initializeResult env then
    .error (.healthKitInitializationError "Failed to initialize HealthKit")
  else
    let sleepData := getSleepAnalysisData env.isIOS env.sleepCb
    .ok
      { restingHeartRate := getRestingHeartRateData env.isIOS env.rhrCb
        heartRateVariability := getHeartRateVariabilityData env.isIOS env.hrvCb
        vo2Max := getVO2MaxData env.isIOS env.vo2Cb
        deepSleepPercentage := sleepData.deepSleepPercentage
        remSleepPercentage := sleepData.remSleepPercentage
        sleepConsistency := sleepData.sleepConsistency
        monthlyTrainingTime := env.workoutData.monthlyTrainingTime
        trainingIntensity := env.workoutData.trainingIntensity
        dailySteps := getTodaysStepCount env.isIOS env.stepsCb }

/-! ## Specification-side definitions used to state the claims -/

/-- The set of category names whose total is at or above 75 percent of the
category maximum (30, 35, 30), as the spec describes `excellentCategories`. -/
def qualifyingCategories (cardioTotal recoveryTotal activityTotal : ℚ) : List String :=
  (if cardioTotal ≥ 75 / 100 * 30 then ["Cardiovascular"] else []) ++
  (if recoveryTotal ≥ 75 / 100 * 35 then ["Recovery"] else []) ++
  (if activityTotal ≥ 75 / 100 * 30 then ["Activity"] else [])

/-- A category calculator returning a fixed total with no items, used to
instantiate the parameterized orchestrator at concrete inputs. -/
def constCalculator (total : ℚ) : ℚ → ℚ → ℚ → CategoryResult :=
  fun _ _ _ => ⟨total, []⟩

/-- A category calculator whose total is its first argument, used to observe
which value the orchestrator passes. -/
def firstArgCalculator : ℚ → ℚ → ℚ → CategoryResult :=
  fun a _ _ => ⟨a, []⟩

/-- A trivial fitness-level classifier for concrete instantiations. -/
def constLevel : ℚ → String := fun _ => "level"

/-- The all-zero health metrics record. -/
def zeroMetrics : HealthMetrics := ⟨0, 0, 0, 0, 0, 0, 0, 0, 0⟩

end VitalityScore

namespace VitalityScore

/-- C1: for every `HealthMetrics` input (and any category calculators and
level classifier), the `totalScore` field of the result of
`calculateFitnessScore` equals exactly the sum of the `cardiovascularPoints`,
`recoveryPoints`, `activityPoints` and `bonusPoints` fields of that same
result. -/
theorem totalScore_eq_sum_components
    (calcCardio calcRecovery calcActivity : ℚ → ℚ → ℚ → CategoryResult)
    (level : ℚ → String) (metrics : HealthMetrics) :
    (calculateFitnessScore calcCardio calcRecovery calcActivity level metrics).totalScore =
      (calculateFitnessScore calcCardio calcRecovery calcActivity level metrics).cardiovascularPoints +
      (calculateFitnessScore calcCardio calcRecovery calcActivity level metrics).recoveryPoints +
      (calculateFitnessScore calcCardio calcRecovery calcActivity level metrics).activityPoints +
      (calculateFitnessScore calcCardio calcRecovery calcActivity level metrics).bonusPoints := rfl

/-- C4: `calculateFitnessScore` passes `monthlyTrainingTime / 30` (not the raw
monthly value) as the first argument to the activity calculator, with
`trainingIntensity` and `dailySteps` passed through unchanged; in particular
`monthlyTrainingTime = 300` makes the activity calculator receive 10. -/
theorem activity_daily_average
    (calcCardio calcRecovery calcActivity : ℚ → ℚ → ℚ → CategoryResult)
    (level : ℚ → String) (metrics : HealthMetrics) :
    ((calculateFitnessScore calcCardio calcRecovery calcActivity level metrics).activityPoints =
      (calcActivity (metrics.monthlyTrainingTime / 30)
        metrics.trainingIntensity metrics.dailySteps).total) ∧
    (metrics.monthlyTrainingTime = 300 →
      (calculateFitnessScore calcCardio calcRecovery calcActivity level metrics).activityPoints =
        (calcActivity 10 metrics.trainingIntensity metrics.dailySteps).total) := by
  refine ⟨rfl, fun h => ?_⟩
  show (calcActivity (metrics.monthlyTrainingTime / 30)
    metrics.trainingIntensity metrics.dailySteps).total = _
  rw [h]
  norm_num

/-- C4 witness: with `monthlyTrainingTime = 300` the activity calculator is
invoked at daily average 10. -/
theorem activity_daily_average_witness :
    (calculateFitnessScore (constCalculator 0) (constCalculator 0) firstArgCalculator
      constLevel { zeroMetrics with monthlyTrainingTime := 300 }).activityPoints =
      (firstArgCalculator 10 ({ zeroMetrics with monthlyTrainingTime := 300 }:HealthMetrics).trainingIntensity
        ({ zeroMetrics with monthlyTrainingTime := 300 }:HealthMetrics).dailySteps).total :=
  (activity_daily_average (constCalculator 0) (constCalculator 0) firstArgCalculator
    constLevel { zeroMetrics with monthlyTrainingTime := 300 }).2 rfl

/-- C5: the three `bonusBreakdown` percentage fields equal
`jsRound (total / max * 100)` with maxima 30, 35, 30, where `jsRound` is
JavaScript `Math.round`, i.e. half-up rounding to the nearest integer. -/
theorem bonusBreakdown_percent_spec
    (calcCardio calcRecovery calcActivity : ℚ → ℚ → ℚ → CategoryResult)
    (level : ℚ → String) (metrics : HealthMetrics) :
    ((calculateFitnessScore calcCardio calcRecovery calcActivity level metrics).bonusBreakdown.cardiovascularPercent =
      jsRound ((calcCardio metrics.restingHeartRate metrics.heartRateVariability metrics.vo2Max).total / 30 * 100)) ∧
    ((calculateFitnessScore calcCardio calcRecovery calcActivity level metrics).bonusBreakdown.recoveryPercent =
      jsRound ((calcRecovery metrics.deepSleepPercentage metrics.remSleepPercentage metrics.sleepConsistency).total / 35 * 100)) ∧
    ((calculateFitnessScore calcCardio calcRecovery calcActivity level metrics).bonusBreakdown.activityPercent =
      jsRound ((calcActivity (metrics.monthlyTrainingTime / 30) metrics.trainingIntensity metrics.dailySteps).total / 30 * 100)) ∧
    (∀ q : ℚ, (jsRound q : ℚ) - 1/2 ≤ q ∧ q < (jsRound q : ℚ) + 1/2) := by
  refine ⟨rfl, rfl, rfl, fun q => ?_⟩
  unfold jsRound
  constructor
  · have h := Int.floor_le (q + 1/2)
    linarith
  · have h := Int.lt_floor_add_one (q + 1/2)
    linarith

/-- C6: the `historyItems` sequence of the result is exactly the concatenation,
in order, of the cardiovascular items, the recovery items, the activity items,
and finally the single bonus history item. -/
theorem historyItems_concat
    (calcCardio calcRecovery calcActivity : ℚ → ℚ → ℚ → CategoryResult)
    (level : ℚ → String) (metrics : HealthMetrics) :
    (calculateFitnessScore calcCardio calcRecovery calcActivity level metrics).historyItems =
      (calcCardio metrics.restingHeartRate metrics.heartRateVariability metrics.vo2Max).items ++
      (calcRecovery metrics.deepSleepPercentage metrics.remSleepPercentage metrics.sleepConsistency).items ++
      (calcActivity (metrics.monthlyTrainingTime / 30) metrics.trainingIntensity metrics.dailySteps).items ++
      [createBonusHistoryItem
        (calcCardio metrics.restingHeartRate metrics.heartRateVariability metrics.vo2Max).total
        (calcRecovery metrics.deepSleepPercentage metrics.remSleepPercentage metrics.sleepConsistency).total
        (calcActivity (metrics.monthlyTrainingTime / 30) metrics.trainingIntensity metrics.dailySteps).total] := rfl

/-- C3: under the hypotheses that the three category totals lie within
`[0, 30]`, `[0, 35]`, `[0, 30]` and the bonus points are one of
`{0, 1, 3, 5}`, the total score lies within `[0, 100]`. -/
theorem totalScore_in_range
    (calcCardio calcRecovery calcActivity : ℚ → ℚ → ℚ → CategoryResult)
    (level : ℚ → String) (m : HealthMetrics)
    (hC0 : 0 ≤ (calcCardio m.restingHeartRate m.heartRateVariability m.vo2Max).total)
    (hC1 : (calcCardio m.restingHeartRate m.heartRateVariability m.vo2Max).total ≤ 30)
    (hR0 : 0 ≤ (calcRecovery m.deepSleepPercentage m.remSleepPercentage m.sleepConsistency).total)
    (hR1 : (calcRecovery m.deepSleepPercentage m.remSleepPercentage m.sleepConsistency).total ≤ 35)
    (hA0 : 0 ≤ (calcActivity (m.monthlyTrainingTime / 30) m.trainingIntensity m.dailySteps).total)
    (hA1 : (calcActivity (m.monthlyTrainingTime / 30) m.trainingIntensity m.dailySteps).total ≤ 30)
    (hB : (calculateBonusPoints
        (calcCardio m.restingHeartRate m.heartRateVariability m.vo2Max).total
        (calcRecovery m.deepSleepPercentage m.remSleepPercentage m.sleepConsistency).total
        (calcActivity (m.monthlyTrainingTime / 30) m.trainingIntensity m.dailySteps).total).points ∈
        ({0, 1, 3, 5} : Set ℚ)) :
    0 ≤ (calculateFitnessScore calcCardio calcRecovery calcActivity level m).totalScore ∧
      (calculateFitnessScore calcCardio calcRecovery calcActivity level m).totalScore ≤ 100 := by
  have hkey : (calculateFitnessScore calcCardio calcRecovery calcActivity level m).totalScore =
      (calcCardio m.restingHeartRate m.heartRateVariability m.vo2Max).total +
      (calcRecovery m.deepSleepPercentage m.remSleepPercentage m.sleepConsistency).total +
      (calcActivity (m.monthlyTrainingTime / 30) m.trainingIntensity m.dailySteps).total +
      (calculateBonusPoints
        (calcCardio m.restingHeartRate m.heartRateVariability m.vo2Max).total
        (calcRecovery m.deepSleepPercentage m.remSleepPercentage m.sleepConsistency).total
        (calcActivity (m.monthlyTrainingTime / 30) m.trainingIntensity m.dailySteps).total).points := rfl
  rw [hkey]
  simp only [Set.mem_insert_iff, Set.mem_singleton_iff] at hB
  rcases hB with hb | hb | hb | hb <;> rw [hb] <;> constructor <;> linarith

/-- C3 witness: with the zero calculators and all-zero metrics the hypotheses
hold and the total score is within range. -/
theorem totalScore_in_range_witness :
    0 ≤ (calculateFitnessScore (constCalculator 0) (constCalculator 0) (constCalculator 0)
        constLevel zeroMetrics).totalScore ∧
      (calculateFitnessScore (constCalculator 0) (constCalculator 0) (constCalculator 0)
        constLevel zeroMetrics).totalScore ≤ 100 :=
  totalScore_in_range (constCalculator 0) (constCalculator 0) (constCalculator 0)
    constLevel zeroMetrics
    (by norm_num [constCalculator]) (by norm_num [constCalculator])
    (by norm_num [constCalculator]) (by norm_num [constCalculator])
    (by norm_num [constCalculator]) (by norm_num [constCalculator])
    (by norm_num [calculateBonusPoints, constCalculator])

/-- A percent-of-max threshold is the same as the corresponding absolute
threshold on the category total. -/
lemma pct_ge_iff (c m : ℚ) (hm : 0 < m) : c / m * 100 ≥ 75 ↔ c ≥ 75 / 100 * m := by
  rw [ge_iff_le, div_mul_eq_mul_div, le_div_iff₀ hm]
  constructor <;> intro h <;> [linarith; linarith]

/-- The modelled bonus explanation contains the phrase "all three" exactly
when all three categories reach 75 percent of their maxima. -/
lemma bonus_expl_all_three (c r a : ℚ) :
    jsIncludes (calculateBonusPoints c r a).detailedExplanation "all three" = true ↔
      (c / 30 * 100 ≥ 75 ∧ r / 35 * 100 ≥ 75 ∧ a / 30 * 100 ≥ 75) := by
  by_cases hc : c / 30 * 100 ≥ 75 <;>
    by_cases hr : r / 35 * 100 ≥ 75 <;>
      by_cases ha : a / 30 * 100 ≥ 75 <;>
        simp [calculateBonusPoints, hc, hr, ha, jsIncludes, String.intercalate] <;>
          decide

/-- The orchestrator's `excellentCategories` value, as a function of the three
category totals: all three names when every category is at or above 75 percent
of its maximum, empty otherwise. -/
lemma excellent_if_all_three (c r a : ℚ) :
    (if jsIncludes (calculateBonusPoints c r a).detailedExplanation "all three" then
        (["Cardiovascular", "Recovery", "Activity"] : List String)
      else []) =
      if c ≥ 75 / 100 * 30 ∧ r ≥ 75 / 100 * 35 ∧ a ≥ 75 / 100 * 30 then
        ["Cardiovascular", "Recovery", "Activity"]
      else [] := by
  by_cases hall : c ≥ 75 / 100 * 30 ∧ r ≥ 75 / 100 * 35 ∧ a ≥ 75 / 100 * 30
  · have hin : jsIncludes (calculateBonusPoints c r a).detailedExplanation "all three" = true :=
      (bonus_expl_all_three c r a).mpr
        ⟨(pct_ge_iff c 30 (by norm_num)).mpr hall.1,
         (pct_ge_iff r 35 (by norm_num)).mpr hall.2.1,
         (pct_ge_iff a 30 (by norm_num)).mpr hall.2.2⟩
    rw [if_pos hin, if_pos hall]
  · have hin : ¬(jsIncludes (calculateBonusPoints c r a).detailedExplanation "all three" = true) := by
      intro hcontra
      have h3 := (bonus_expl_all_three c r a).mp hcontra
      exact hall ⟨(pct_ge_iff c 30 (by norm_num)).mp h3.1,
        (pct_ge_iff r 35 (by norm_num)).mp h3.2.1,
        (pct_ge_iff a 30 (by norm_num)).mp h3.2.2⟩
    rw [if_neg hin, if_neg hall]

/-- C2 counterexample: with a spec-legal calculator outcome in which exactly
the cardiovascular category reaches 75 percent of its maximum,
`excellentCategories` is empty while the set of qualifying category names is
`["Cardiovascular"]`. -/
theorem excellentCategories_cex :
    (calculateFitnessScore (constCalculator 30) (constCalculator 0) (constCalculator 0)
        constLevel zeroMetrics).bonusBreakdown.excellentCategories = [] ∧
      qualifyingCategories
        (calculateFitnessScore (constCalculator 30) (constCalculator 0) (constCalculator 0)
          constLevel zeroMetrics).cardiovascularPoints
        (calculateFitnessScore (constCalculator 30) (constCalculator 0) (constCalculator 0)
          constLevel zeroMetrics).recoveryPoints
        (calculateFitnessScore (constCalculator 30) (constCalculator 0) (constCalculator 0)
          constLevel zeroMetrics).activityPoints = ["Cardiovascular"] := by
  constructor
  · show (if jsIncludes (calculateBonusPoints 30 0 0).detailedExplanation "all three" then
        (["Cardiovascular", "Recovery", "Activity"] : List String)
      else []) = []
    rw [excellent_if_all_three]
    norm_num
  · show qualifyingCategories 30 0 0 = ["Cardiovascular"]
    norm_num [qualifyingCategories]

/-- C2 amended: `excellentCategories` contains all three category names when
every category total is at or above 75 percent of its maximum (30, 35, 30),
and is empty otherwise — even when exactly one or two categories qualify. -/
theorem excellentCategories_all_or_nothing
    (calcCardio calcRecovery calcActivity : ℚ → ℚ → ℚ → CategoryResult)
    (level : ℚ → String) (metrics : HealthMetrics) :
    (calculateFitnessScore calcCardio calcRecovery calcActivity level metrics).bonusBreakdown.excellentCategories =
      if (calcCardio metrics.restingHeartRate metrics.heartRateVariability metrics.vo2Max).total ≥ 75 / 100 * 30 ∧
         (calcRecovery metrics.deepSleepPercentage metrics.remSleepPercentage metrics.sleepConsistency).total ≥ 75 / 100 * 35 ∧
         (calcActivity (metrics.monthlyTrainingTime / 30) metrics.trainingIntensity metrics.dailySteps).total ≥ 75 / 100 * 30 then
        ["Cardiovascular", "Recovery", "Activity"]
      else [] :=
  excellent_if_all_three
    (calcCardio metrics.restingHeartRate metrics.heartRateVariability metrics.vo2Max).total
    (calcRecovery metrics.deepSleepPercentage metrics.remSleepPercentage metrics.sleepConsistency).total
    (calcActivity (metrics.monthlyTrainingTime / 30) metrics.trainingIntensity metrics.dailySteps).total

/-- The standard deviation of an empty duration list is 0. -/
lemma standardDeviation_nil : standardDeviation [] = 0 := by
  simp [standardDeviation, sleepVariance]

/-- The consistency score of an empty duration list is 100. -/
lemma sleepConsistencyScore_nil : sleepConsistencyScore [] = 100 := by
  rw [sleepConsistencyScore, standardDeviation_nil]
  norm_num [jsRoundR]

/-- A successful sleep callback with no samples yields percentages 0 and
consistency 100. -/
lemma sleepAnalysis_ok_nil :
    getSleepAnalysisData true (Except.ok []) =
      ({ deepSleepPercentage := 0, remSleepPercentage := 0,
         sleepConsistency := 100 } : SleepAnalysisResult) := by
  rw [getSleepAnalysisData]
  norm_num [totalSleepOf, sleepDurations, totalDeepSleepOf, totalRemSleepOf,
    sleepConsistencyScore_nil, jsRound]

/-- C10: in `getSleepAnalysisData` the percentage divisions are guarded by
`totalSleep > 0` and the mean/variance divisions by a non-empty list, so a
successful callback with an empty sample list yields deep and REM percentages
of 0 but `sleepConsistency = 100`, while a callback error yields the all-zero
record. -/
theorem sleep_empty_guards :
    getSleepAnalysisData true (Except.ok []) =
      ({ deepSleepPercentage := 0, remSleepPercentage := 0,
         sleepConsistency := 100 } : SleepAnalysisResult) ∧
    (∀ e : String, getSleepAnalysisData true (Except.error e) =
      ({ deepSleepPercentage := 0, remSleepPercentage := 0,
         sleepConsistency := 0 } : SleepAnalysisResult)) := by
  exact ⟨sleepAnalysis_ok_nil, fun e => rfl⟩

/-- C9 counterexample: on iOS, a successful sleep callback with an empty
sample list does not resolve with the all-zero sleep record — its
`sleepConsistency` is 100. -/
theorem providers_cex :
    getSleepAnalysisData true (Except.ok []) ≠
      ({ deepSleepPercentage := 0, remSleepPercentage := 0,
         sleepConsistency := 0 } : SleepAnalysisResult) := by
  rw [sleepAnalysis_ok_nil]
  intro h
  have := congrArg SleepAnalysisResult.sleepConsistency h
  norm_num at this

/-- C9 amended: no provider ever rejects — each is a total function of the
platform flag and callback outcome.  Off-iOS and callback-error cases resolve
with 0 (or the all-zero sleep record), an empty sample list resolves with 0
for the numeric providers and with percentages 0 for the sleep provider, but
the empty-list sleep record has `sleepConsistency = 100`, not 0. -/
theorem providers_resolve_defaults :
    (∀ cb, getRestingHeartRateData false cb = 0) ∧
    (∀ e, getRestingHeartRateData true (Except.error e) = 0) ∧
    (getRestingHeartRateData true (Except.ok []) = 0) ∧
    (∀ cb, getHeartRateVariabilityData false cb = 0) ∧
    (∀ e, getHeartRateVariabilityData true (Except.error e) = 0) ∧
    (getHeartRateVariabilityData true (Except.ok []) = 0) ∧
    (∀ cb, getVO2MaxData false cb = 0) ∧
    (∀ e, getVO2MaxData true (Except.error e) = 0) ∧
    (getVO2MaxData true (Except.ok []) = 0) ∧
    (∀ cb, getTodaysStepCount false cb = 0) ∧
    (∀ e, getTodaysStepCount true (Except.error e) = 0) ∧
    (getTodaysStepCount true (Except.ok none) = 0) ∧
    (∀ cb, getSleepAnalysisData false cb =
      ({ deepSleepPercentage := 0, remSleepPercentage := 0,
         sleepConsistency := 0 } : SleepAnalysisResult)) ∧
    (∀ e, getSleepAnalysisData true (Except.error e) =
      ({ deepSleepPercentage := 0, remSleepPercentage := 0,
         sleepConsistency := 0 } : SleepAnalysisResult)) ∧
    (getSleepAnalysisData true (Except.ok []) =
      ({ deepSleepPercentage := 0, remSleepPercentage := 0,
         sleepConsistency := 100 } : SleepAnalysisResult)) := by
  refine ⟨fun cb => rfl, fun e => rfl, ?_, fun cb => rfl, fun e => rfl, ?_,
    fun cb => rfl, fun e => rfl, ?_, fun cb => rfl, fun e => rfl, rfl,
    fun cb => rfl, fun e => rfl, sleepAnalysis_ok_nil⟩
  · norm_num [getRestingHeartRateData, averageSamples, jsRound]
  · norm_num [getHeartRateVariabilityData, averageSamples, jsRound]
  · norm_num [getVO2MaxData, averageSamples, jsRound]

/-- C7: the `sleepConsistency` value produced by `getSleepAnalysisData` equals
`round (max 0 (100 - 20 * sigma))` with `sigma` the standard deviation of the
per-sample durations in hours; the score always lies within `[0, 100]` and is
monotonically non-increasing in the standard deviation. -/
theorem sleepConsistency_formula :
    (∀ results : List SleepSample,
      (getSleepAnalysisData true (Except.ok results)).sleepConsistency =
        ((jsRoundR (max 0 (100 - 20 * standardDeviation (sleepDurations results))) : ℤ) : ℚ)) ∧
    (∀ ds : List ℚ, 0 ≤ sleepConsistencyScore ds ∧ sleepConsistencyScore ds ≤ 100) ∧
    (∀ ds₁ ds₂ : List ℚ, standardDeviation ds₁ ≤ standardDeviation ds₂ →
      sleepConsistencyScore ds₂ ≤ sleepConsistencyScore ds₁) := by
  refine ⟨fun results => ?_, fun ds => ⟨?_, ?_⟩, fun ds₁ ds₂ h => ?_⟩
  · show ((sleepConsistencyScore (sleepDurations results) : ℤ) : ℚ) = _
    rw [sleepConsistencyScore, mul_comm (standardDeviation (sleepDurations results)) 20]
  · rw [sleepConsistencyScore, jsRoundR]
    refine Int.le_floor.mpr ?_
    have h0 : (0:ℝ) ≤ max 0 (100 - standardDeviation ds * 20) := le_max_left 0 _
    push_cast
    linarith
  · rw [sleepConsistencyScore, jsRoundR]
    have hσ : (0:ℝ) ≤ standardDeviation ds := Real.sqrt_nonneg _
    have hmul : (0:ℝ) ≤ standardDeviation ds * 20 := by positivity
    have hmax : max 0 (100 - standardDeviation ds * 20) ≤ (100:ℝ) :=
      max_le (by norm_num) (by linarith)
    have hlt : ⌊max 0 (100 - standardDeviation ds * 20) + 1/2⌋ < (101:ℤ) := by
      refine Int.floor_lt.mpr ?_
      push_cast
      linarith
    omega
  · refine Int.floor_le_floor ?_
    have : max 0 (100 - standardDeviation ds₂ * 20) ≤
        max 0 (100 - standardDeviation ds₁ * 20) :=
      max_le_max le_rfl (by nlinarith)
    linarith

/-- The two-sample list `[3, 3]` has no spread while `[0, 2]` does. -/
lemma stdDev_33_le_02 : standardDeviation [3, 3] ≤ standardDeviation [0, 2] := by
  have h1 : sleepVariance [3, 3] = 0 := by
    norm_num [sleepVariance, averageSleep]
  have h2 : sleepVariance [0, 2] = 1 := by
    norm_num [sleepVariance, averageSleep]
  rw [standardDeviation, standardDeviation, h1, h2]
  push_cast
  rw [Real.sqrt_zero]
  exact Real.sqrt_nonneg 1

/-- C7 witness: the list with less spread scores at least as high. -/
theorem sleepConsistency_formula_witness :
    sleepConsistencyScore [0, 2] ≤ sleepConsistencyScore [3, 3] :=
  sleepConsistency_formula.2.2 [3, 3] [0, 2] stdDev_33_le_02

/-- C8: `getAllHealthMetrics` produces the initialization error exactly when
the service is not yet initialized and initialization fails; whenever it is
already initialized or initialization succeeds it returns the complete
nine-field metrics record populated from the (always-resolving) providers. -/
theorem getAllHealthMetrics_error_iff (flag : Bool) (env : HealthKitEnv) :
    ((∃ msg, getAllHealthMetrics flag env =
        Except.error (HealthServiceError.healthKitInitializationError msg)) ↔
      (flag = false ∧ initializeResult env = false)) ∧
    ((flag = true ∨ initializeResult env = true) →
      getAllHealthMetrics flag env = Except.ok
        { restingHeartRate := getRestingHeartRateData env.isIOS env.rhrCb
          heartRateVariability := getHeartRateVariabilityData env.isIOS env.hrvCb
          vo2Max := getVO2MaxData env.isIOS env.vo2Cb
          deepSleepPercentage := (getSleepAnalysisData env.isIOS env.sleepCb).deepSleepPercentage
          remSleepPercentage := (getSleepAnalysisData env.isIOS env.sleepCb).remSleepPercentage
          sleepConsistency := (getSleepAnalysisData env.isIOS env.sleepCb).sleepConsistency
          monthlyTrainingTime := env.workoutData.monthlyTrainingTime
          trainingIntensity := env.workoutData.trainingIntensity
          dailySteps := getTodaysStepCount env.isIOS env.stepsCb }) := by
  rw [getAllHealthMetrics]
  cases flag <;> cases hinit : initializeResult env <;> simp [hinit]

/-- An environment on a non-iOS platform: initialization always fails there. -/
def envNoHealthKit : HealthKitEnv :=
  ⟨false, none, Except.error "e", Except.error "e", Except.error "e",
    Except.error "e", Except.error "e", ⟨0, 0⟩⟩

/-- C8 witness: with an uninitialized service on a non-iOS platform,
`getAllHealthMetrics` produces the initialization error. -/
theorem getAllHealthMetrics_error_iff_witness :
    ∃ msg, getAllHealthMetrics false envNoHealthKit =
      Except.error (HealthServiceError.healthKitInitializationError msg) :=
  (getAllHealthMetrics_error_iff false envNoHealthKit).1.mpr ⟨rfl, rfl⟩

end VitalityScore
